import Mathlib

/-!
Verification of `a2d2_to_ros` (`src/a2d2_to_ros/lib_a2d2_to_ros.cpp`).

Shallow embedding conventions:
* `uint64_t` / `uint32_t` values are `Nat`s; the two narrowing casts in
  `a2d2_timestamp_to_ros_time` are made explicit with `% 2 ^ 32`.
* `int64_t` values are `Int`s; `static_cast<uint64_t>` is `% 2 ^ 64` then `toNat`.
* Eigen `double` vectors are modelled over `ℝ` (every real is finite, so
  `std::isfinite` holds identically); Eigen's `isApprox` uses squared norms,
  exactly as in `Eigen::DenseBase::isApprox`.
* The ego-bounding-box doubles are modelled by an extended-rational type
  `FDouble` that keeps the IEEE special values `nan`, `+inf`, `-inf`, so that
  `std::isfinite` and IEEE comparisons are represented faithfully
  (exact rationals stand in for the finite binary64 values).
* The npz dataset `std::map<std::string, cnpy::NpyArray>` is an association
  list sorted by key, which is how `std::map` iterates.
-/

namespace A2D2

/-! ## Timestamp conversion (`valid_ros_timestamp`, `a2d2_timestamp_to_ros_time`) -/

/-- Model of `ONE_THOUSAND` from the source. -/
def ONE_THOUSAND : Nat := 1000

/-- Model of `ONE_MILLION` from the source. -/
def ONE_MILLION : Nat := 1000000

/-- Model of `valid_ros_timestamp`: the seconds quotient must fit in `uint32_t`.
`boundary = std::numeric_limits<uint32_t>::max() = 4294967295`. -/
def valid_ros_timestamp (time : Nat) : Bool :=
  decide (time / ONE_MILLION ≤ 4294967295)

/-- Model of `ros::Time`: a seconds / nanoseconds pair, both `uint32_t`. -/
structure RosTime where
  sec : Nat
  nsec : Nat
deriving DecidableEq, Repr

/-- Model of `a2d2_timestamp_to_ros_time`: epoch microseconds to `ros::Time`.
The two `static_cast<uint32_t>` narrowing conversions are the `% 2 ^ 32`. -/
def a2d2_timestamp_to_ros_time (time : Nat) : RosTime :=
  let truncated_secs := time / ONE_MILLION
  let mu_secs := time - truncated_secs * ONE_MILLION
  let n_secs := mu_secs * ONE_THOUSAND
  ⟨truncated_secs % 2 ^ 32, n_secs % 2 ^ 32⟩

/-- Model of `ros::Time` comparison (`ros::TimeBase::operator<` from the ROS client
library, an external dependency of the source): lexicographic on
(seconds, nanoseconds). -/
def rosTimeLt (lhs rhs : RosTime) : Bool :=
  if lhs.sec < rhs.sec then true
  else if lhs.sec = rhs.sec ∧ lhs.nsec < rhs.nsec then true
  else false

/-! ## `DataPair` and its time comparator -/

/-- Model of `std_msgs::Header` as used by `DataPair::build`: `seq`, `frame_id`, `stamp`. -/
structure Header where
  seq : Nat
  frame_id : String
  stamp : RosTime
deriving DecidableEq, Repr

/-- Model of `DataPair`: a header plus a scalar value (`value.data`, a `double`,
modelled as an exact rational). -/
structure DataPair where
  header : Header
  value : ℚ
deriving DecidableEq, Repr

/-- Model of `DataPair::build`: seq 0, the given frame id, stamp from
`a2d2_timestamp_to_ros_time`. -/
def DataPair.build (value : ℚ) (time : Nat) (frame_id : String) : DataPair :=
  { header := { seq := 0, frame_id := frame_id,
                stamp := a2d2_timestamp_to_ros_time time }
    value := value }

/-- Model of `DataPairTimeComparator::operator()`: compares only `header.stamp`. -/
def DataPairTimeComparator (lhs rhs : DataPair) : Bool :=
  rosTimeLt lhs.header.stamp rhs.header.stamp

/-! ### Helper lemmas for the timestamp theorems -/

lemma valid_ros_timestamp_iff (time : Nat) :
    valid_ros_timestamp time = true ↔ time ≤ 4294967295999999 := by
  unfold valid_ros_timestamp ONE_MILLION
  rw [decide_eq_true_iff]
  omega

/-- On representable inputs the two narrowing casts are the identity. -/
lemma a2d2_timestamp_eq_of_valid {time : Nat}
    (h : valid_ros_timestamp time = true) :
    a2d2_timestamp_to_ros_time time =
      ⟨time / 1000000, time % 1000000 * 1000⟩ := by
  rw [valid_ros_timestamp_iff] at h
  unfold a2d2_timestamp_to_ros_time ONE_MILLION ONE_THOUSAND
  have h1 : time / 1000000 % 2 ^ 32 = time / 1000000 := by
    apply Nat.mod_eq_of_lt
    omega
  have h2 : time - time / 1000000 * 1000000 = time % 1000000 := by
    omega
  have h3 : time % 1000000 * 1000 % 2 ^ 32 = time % 1000000 * 1000 := by
    apply Nat.mod_eq_of_lt
    have := Nat.mod_lt time (y := 1000000) (by omega)
    omega
  simp only [RosTime.mk.injEq, h2, h3, h1]

/-! ### Claim C3 -/

/-- C3: `valid_ros_timestamp` returns true for every microsecond count up to
`4294967295999999` and false from `4294967296000000` on. -/
theorem c3_valid_ros_timestamp_range (us : Nat) :
    (us ≤ 4294967295999999 → valid_ros_timestamp us = true) ∧
    (4294967296000000 ≤ us → valid_ros_timestamp us = false) := by
  constructor
  · intro h
    exact (valid_ros_timestamp_iff us).mpr h
  · intro h
    rcases Bool.eq_false_or_eq_true (valid_ros_timestamp us) with hb | hb
    · have hle := (valid_ros_timestamp_iff us).mp hb
      omega
    · exact hb

/-- Witness for C3 at the boundary values. -/
theorem c3_witness :
    valid_ros_timestamp 4294967295999999 = true ∧
    valid_ros_timestamp 4294967296000000 = false :=
  ⟨(c3_valid_ros_timestamp_range 4294967295999999).1 (by norm_num),
   (c3_valid_ros_timestamp_range 4294967296000000).2 (by norm_num)⟩

/-! ### Claim C4 -/

/-- C4 counterexample: for `s = 4294967296` and `ms = 0`, the input
`1000000 * s + ms = 4294967296000000` fits in `uint64`, yet the conversion
returns seconds `0` (the quotient reduced modulo `2 ^ 32`), not `s`. -/
theorem c4_counterexample :
    a2d2_timestamp_to_ros_time (1000000 * 4294967296 + 0) = ⟨0, 0⟩ ∧
    a2d2_timestamp_to_ros_time (1000000 * 4294967296 + 0) ≠ ⟨4294967296, 0 * 1000⟩ :=
  ⟨rfl, by decide⟩

/-- C4 (amended): for every `s ≤ 4294967295` and `ms < 1000000`, the
conversion of `1000000 * s + ms` is exactly `(s, ms * 1000)`; the extra bound
on `s` is forced by the `uint32` seconds field. -/
theorem c4_round_trip (s ms : Nat) (hs : s ≤ 4294967295) (hms : ms < 1000000) :
    a2d2_timestamp_to_ros_time (1000000 * s + ms) = ⟨s, ms * 1000⟩ := by
  have hv : valid_ros_timestamp (1000000 * s + ms) = true := by
    rw [valid_ros_timestamp_iff]
    omega
  rw [a2d2_timestamp_eq_of_valid hv]
  have hq : (1000000 * s + ms) / 1000000 = s := by omega
  have hr : (1000000 * s + ms) % 1000000 = ms := by omega
  rw [hq, hr]

/-- Witness for C4 (amended) at `s = 7`, `ms = 123`. -/
theorem c4_witness :
    7 ≤ 4294967295 ∧ 123 < 1000000 ∧
    a2d2_timestamp_to_ros_time (1000000 * 7 + 123) = ⟨7, 123 * 1000⟩ :=
  ⟨by norm_num, by norm_num, c4_round_trip 7 123 (by norm_num) (by norm_num)⟩

/-! ### Claim C10 -/

/-- C10: under `valid_ros_timestamp`, both narrowing casts in
`a2d2_timestamp_to_ros_time` are value-preserving: the seconds quotient is at
most `4294967295` and the nanoseconds value is at most `999999000`, so the
result is exactly `(us / 1000000, (us % 1000000) * 1000)` with no modular
reduction. -/
theorem c10_casts_value_preserving (us : Nat) (h64 : us < 2 ^ 64)
    (h : valid_ros_timestamp us = true) :
    us / 1000000 ≤ 4294967295 ∧
    us % 1000000 * 1000 ≤ 999999000 ∧
    a2d2_timestamp_to_ros_time us = ⟨us / 1000000, us % 1000000 * 1000⟩ := by
  have hb := (valid_ros_timestamp_iff us).mp h
  refine ⟨by omega, by omega, a2d2_timestamp_eq_of_valid h⟩

/-- Witness for C10 at the largest representable microsecond count. -/
theorem c10_witness :
    4294967295999999 < 2 ^ 64 ∧
    valid_ros_timestamp 4294967295999999 = true ∧
    a2d2_timestamp_to_ros_time 4294967295999999 =
      ⟨4294967295999999 / 1000000, 4294967295999999 % 1000000 * 1000⟩ :=
  ⟨by norm_num, by decide,
   (c10_casts_value_preserving 4294967295999999 (by norm_num) (by decide)).2.2⟩

/-- Model of `rosTimeLt` is the lexicographic strict order on (sec, nsec). -/
lemma rosTimeLt_iff (a b : RosTime) :
    rosTimeLt a b = true ↔
      (a.sec < b.sec ∨ (a.sec = b.sec ∧ a.nsec < b.nsec)) := by
  unfold rosTimeLt
  split
  · rename_i h
    exact iff_of_true rfl (Or.inl h)
  · rename_i h
    split
    · rename_i h2
      exact iff_of_true rfl (Or.inr h2)
    · rename_i h2
      constructor
      · intro hf
        exact absurd hf Bool.false_ne_true
      · rintro (hlt | hand)
        · exact absurd hlt h
        · exact absurd hand h2

/-- On representable stamps the comparator agrees with the microsecond
order, whatever the values and frames. -/
lemma comparator_build_lt_iff (v1 v2 : ℚ) (t1 t2 : Nat) (f1 f2 : String)
    (h1 : valid_ros_timestamp t1 = true) (h2 : valid_ros_timestamp t2 = true) :
    (DataPairTimeComparator (DataPair.build v1 t1 f1)
        (DataPair.build v2 t2 f2) = true ↔ t1 < t2) := by
  unfold DataPairTimeComparator DataPair.build
  dsimp only
  rw [a2d2_timestamp_eq_of_valid h1, a2d2_timestamp_eq_of_valid h2,
    rosTimeLt_iff]
  dsimp only
  omega

/-! ### Claim C9 -/

/-- C9: the `DataPair` comparator orders pairs built by `DataPair::build`
solely by timestamp: for representable microsecond stamps it is true exactly
when the left stamp is strictly earlier, independent of the value and frame
identifier; in particular two pairs with equal stamps but different values
and frames are unordered in both directions. -/
theorem c9_comparator_orders_by_time (v1 v2 : ℚ) (t1 t2 : Nat) (f1 f2 : String)
    (h1 : valid_ros_timestamp t1 = true) (h2 : valid_ros_timestamp t2 = true) :
    (DataPairTimeComparator (DataPair.build v1 t1 f1)
        (DataPair.build v2 t2 f2) = true ↔ t1 < t2) ∧
    (t1 = t2 →
      DataPairTimeComparator (DataPair.build v1 t1 f1)
          (DataPair.build v2 t2 f2) = false ∧
      DataPairTimeComparator (DataPair.build v2 t2 f2)
          (DataPair.build v1 t1 f1) = false) := by
  refine ⟨comparator_build_lt_iff v1 v2 t1 t2 f1 f2 h1 h2, fun heq => ⟨?_, ?_⟩⟩
  · rw [Bool.eq_false_iff, Ne]
    rw [comparator_build_lt_iff v1 v2 t1 t2 f1 f2 h1 h2]
    omega
  · rw [Bool.eq_false_iff, Ne]
    rw [comparator_build_lt_iff v2 v1 t2 t1 f2 f1 h2 h1]
    omega

/-- Witness for C9: a pair stamped 1 s sorts before one stamped 5 s,
whatever the values and frames. -/
theorem c9_witness :
    valid_ros_timestamp 1000000 = true ∧
    valid_ros_timestamp 5000000 = true ∧
    DataPairTimeComparator (DataPair.build 0 1000000 "front")
      (DataPair.build 37 5000000 "rear") = true :=
  ⟨by decide, by decide,
   (c9_comparator_orders_by_time 0 37 1000000 5000000 "front" "rear"
      (by decide) (by decide)).1.mpr (by norm_num)⟩

/-! ## Ego bounding box (`verify_ego_bbox_params`, `build_ego_shape_msg`)

A `double` here is an extended rational: a finite value, `nan`, or one of the
two infinities. Exact rational arithmetic stands in for the (exactly
representable) finite binary64 values; the claims only evaluate finite
subtractions. -/

/-- A binary64 value as seen by `std::isfinite` and `operator<`. -/
inductive FDouble where
  | fin (x : ℚ)
  | nan
  | posInf
  | negInf
deriving DecidableEq, Repr

/-- Model of `std::isfinite`. -/
def FDouble.isfinite : FDouble → Bool
  | .fin _ => true
  | _ => false

/-- IEEE-754 `operator<`: any comparison with `nan` is false. -/
def FDouble.lt : FDouble → FDouble → Bool
  | .fin a, .fin b => decide (a < b)
  | .fin _, .posInf => true
  | .negInf, .fin _ => true
  | .negInf, .posInf => true
  | _, _ => false

/-- IEEE-754 subtraction on the extended values (finite results are exact;
the C++ result additionally rounds, which no claim exercises). -/
def FDouble.sub : FDouble → FDouble → FDouble
  | .fin a, .fin b => .fin (a - b)
  | .fin _, .posInf => .negInf
  | .fin _, .negInf => .posInf
  | .posInf, .fin _ => .posInf
  | .negInf, .fin _ => .negInf
  | .posInf, .negInf => .posInf
  | .negInf, .posInf => .negInf
  | _, _ => .nan

/-- Model of `verify_ego_bbox_params`: all six values finite, and min strictly below
max on each axis. -/
def verify_ego_bbox_params (x_min x_max y_min y_max z_min z_max : FDouble) :
    Bool :=
  let all_finite :=
    x_min.isfinite && x_max.isfinite && y_min.isfinite && y_max.isfinite &&
      z_min.isfinite && z_max.isfinite
  let x_ordered := x_min.lt x_max
  let y_ordered := y_min.lt y_max
  let z_ordered := z_min.lt z_max
  let all_ordered := x_ordered && y_ordered && z_ordered
  all_finite && all_ordered

/-- Model of `shape_msgs::SolidPrimitive` as filled in by `build_ego_shape_msg`:
the `BOX` type constant and the three dimensions
(`BOX_X = 0`, `BOX_Y = 1`, `BOX_Z = 2`, `BOX = 1` in `shape_msgs`). -/
structure SolidPrimitive where
  type : Nat
  dimensions : List FDouble
deriving DecidableEq, Repr

/-- Model of `build_ego_shape_msg`: a BOX whose side lengths are `max - min` per axis. -/
def build_ego_shape_msg (x_min x_max y_min y_max z_min z_max : FDouble) :
    SolidPrimitive :=
  let side_length := fun (mi ma : FDouble) => ma.sub mi
  { type := 1
    dimensions :=
      [side_length x_min x_max, side_length y_min y_max,
        side_length z_min z_max] }

lemma FDouble.isfinite_iff (v : FDouble) :
    v.isfinite = true ↔ ∃ a : ℚ, v = .fin a := by
  cases v <;> simp [FDouble.isfinite]

lemma FDouble.lt_fin_iff (a b : ℚ) :
    FDouble.lt (.fin a) (.fin b) = true ↔ a < b := by
  simp [FDouble.lt]

/-! ### Claim C8 -/

/-- C8: `verify_ego_bbox_params` is true exactly when all six bounds are
finite and each min is strictly below its max, and on validated bounds
`build_ego_shape_msg` yields a BOX whose dimensions are exactly
`(x_max - x_min, y_max - y_min, z_max - z_min)`. -/
theorem c8_bbox_validation (x_min x_max y_min y_max z_min z_max : FDouble) :
    (verify_ego_bbox_params x_min x_max y_min y_max z_min z_max = true ↔
      ∃ a b c d e f : ℚ,
        x_min = .fin a ∧ x_max = .fin b ∧ y_min = .fin c ∧ y_max = .fin d ∧
          z_min = .fin e ∧ z_max = .fin f ∧ a < b ∧ c < d ∧ e < f) ∧
    (verify_ego_bbox_params x_min x_max y_min y_max z_min z_max = true →
      ∃ a b c d e f : ℚ,
        x_min = .fin a ∧ x_max = .fin b ∧ y_min = .fin c ∧ y_max = .fin d ∧
          z_min = .fin e ∧ z_max = .fin f ∧
          build_ego_shape_msg x_min x_max y_min y_max z_min z_max =
            { type := 1,
              dimensions := [.fin (b - a), .fin (d - c), .fin (f - e)] }) := by
  have hiff : verify_ego_bbox_params x_min x_max y_min y_max z_min z_max = true ↔
      ∃ a b c d e f : ℚ,
        x_min = .fin a ∧ x_max = .fin b ∧ y_min = .fin c ∧ y_max = .fin d ∧
          z_min = .fin e ∧ z_max = .fin f ∧ a < b ∧ c < d ∧ e < f := by
    constructor
    · intro h
      simp only [verify_ego_bbox_params, Bool.and_eq_true] at h
      have hxo := h.2.1.1
      have hyo := h.2.1.2
      have hzo := h.2.2
      obtain ⟨a, ha⟩ := (FDouble.isfinite_iff _).mp h.1.1.1.1.1.1
      obtain ⟨b, hb⟩ := (FDouble.isfinite_iff _).mp h.1.1.1.1.1.2
      obtain ⟨c, hc⟩ := (FDouble.isfinite_iff _).mp h.1.1.1.1.2
      obtain ⟨d, hd⟩ := (FDouble.isfinite_iff _).mp h.1.1.1.2
      obtain ⟨e, he⟩ := (FDouble.isfinite_iff _).mp h.1.1.2
      obtain ⟨f, hf⟩ := (FDouble.isfinite_iff _).mp h.1.2
      clear h
      subst ha hb hc hd he hf
      exact ⟨a, b, c, d, e, f, rfl, rfl, rfl, rfl, rfl, rfl,
        (FDouble.lt_fin_iff _ _).mp hxo, (FDouble.lt_fin_iff _ _).mp hyo,
        (FDouble.lt_fin_iff _ _).mp hzo⟩
    · rintro ⟨a, b, c, d, e, f, ha, hb, hc, hd, he, hf, hab, hcd, hef⟩
      subst ha hb hc hd he hf
      unfold verify_ego_bbox_params
      simp [FDouble.isfinite, FDouble.lt, hab, hcd, hef]
  refine ⟨hiff, fun h => ?_⟩
  obtain ⟨a, b, c, d, e, f, ha, hb, hc, hd, he, hf, _, _, _⟩ := hiff.mp h
  subst ha hb hc hd he hf
  exact ⟨a, b, c, d, e, f, rfl, rfl, rfl, rfl, rfl, rfl, rfl⟩

/-- Witness for C8: bounds `(-1,1,-1,1,-1,1)` validate and give a box of
dimensions (2,2,2), while swapping the x bounds fails validation. -/
theorem c8_witness :
    verify_ego_bbox_params (.fin (-1)) (.fin 1) (.fin (-1)) (.fin 1)
        (.fin (-1)) (.fin 1) = true ∧
    build_ego_shape_msg (.fin (-1)) (.fin 1) (.fin (-1)) (.fin 1)
        (.fin (-1)) (.fin 1) =
      { type := 1, dimensions := [.fin 2, .fin 2, .fin 2] } ∧
    verify_ego_bbox_params (.fin 1) (.fin (-1)) (.fin (-1)) (.fin 1)
        (.fin (-1)) (.fin 1) = false := by
  have hv : verify_ego_bbox_params (.fin (-1)) (.fin 1) (.fin (-1)) (.fin 1)
      (.fin (-1)) (.fin 1) = true :=
    (c8_bbox_validation _ _ _ _ _ _).1.mpr
      ⟨-1, 1, -1, 1, -1, 1, rfl, rfl, rfl, rfl, rfl, rfl,
        by norm_num, by norm_num, by norm_num⟩
  refine ⟨hv, ?_, ?_⟩
  · simp only [build_ego_shape_msg, FDouble.sub, SolidPrimitive.mk.injEq,
      List.cons.injEq, FDouble.fin.injEq, and_true, true_and]
    norm_num
  · have hnot : ¬ ((1 : ℚ) < -1) := by norm_num
    simp [verify_ego_bbox_params, FDouble.isfinite, FDouble.lt, hnot]

/-! ## Orthonormal basis construction (`get_orthonormal_basis`)

`Eigen::Vector3d` is modelled componentwise over `ℝ`. Every real number is
finite, so `std::isfinite(v.norm())` holds identically; `Eigen`'s
`isApprox(other, prec)` compares squared norms:
`(a - b).squaredNorm() <= prec^2 * min(a.squaredNorm(), b.squaredNorm())`.
`v.normalized()` divides componentwise by the norm; for the zero vector the
C++ result is NaN componentwise, here `0/0 = 0` — in both semantics the
result of normalizing the zero vector is not a unit vector. -/

/-- Model of `Eigen::Vector3d`. -/
structure V3 where
  x : ℝ
  y : ℝ
  z : ℝ

/-- Dot product. -/
def V3.dot (a b : V3) : ℝ := a.x * b.x + a.y * b.y + a.z * b.z

/-- Model of `Eigen` cross product. -/
def V3.cross (a b : V3) : V3 :=
  ⟨a.y * b.z - a.z * b.y, a.z * b.x - a.x * b.z, a.x * b.y - a.y * b.x⟩

/-- Componentwise difference. -/
def V3.sub (a b : V3) : V3 := ⟨a.x - b.x, a.y - b.y, a.z - b.z⟩

/-- Scalar multiple. -/
def V3.smul (c : ℝ) (v : V3) : V3 := ⟨c * v.x, c * v.y, c * v.z⟩

/-- The zero vector. -/
def V3.zero : V3 := ⟨0, 0, 0⟩

/-- Model of `squaredNorm()`. -/
def V3.normSq (v : V3) : ℝ := v.dot v

/-- Model of `norm()`. -/
noncomputable def V3.norm (v : V3) : ℝ := Real.sqrt v.normSq

/-- Model of `normalized()`: componentwise division by the norm. -/
noncomputable def V3.normalized (v : V3) : V3 :=
  ⟨v.x / v.norm, v.y / v.norm, v.z / v.norm⟩

/-- Model of `vector_is_valid`: `std::isfinite(v.norm())`, identically true over `ℝ`
(the real model has no non-finite values). -/
def vector_is_valid (_v : V3) : Prop := True

/-- Model of `axis_is_valid`: valid and of norm strictly above `epsilon`. -/
def axis_is_valid (axis : V3) (epsilon : ℝ) : Prop :=
  vector_is_valid axis ∧ axis.norm > epsilon

/-- Model of `Eigen::DenseBase::isApprox` on 3-vectors (squared-norm test). -/
def isApprox (a b : V3) (precision : ℝ) : Prop :=
  (a.sub b).normSq ≤ precision ^ 2 * min a.normSq b.normSq

/-- Model of `axes_are_valid`: both axes valid and not approximately equal. -/
def axes_are_valid (axis1 axis2 : V3) (epsilon : ℝ) : Prop :=
  axis_is_valid axis1 epsilon ∧ axis_is_valid axis2 epsilon ∧
    ¬ isApprox axis1 axis2 epsilon

/-- Model of `Eigen::Matrix3d` viewed by columns, as `get_orthonormal_basis` fills it. -/
structure M3 where
  c0 : V3
  c1 : V3
  c2 : V3

/-- Model of `basis.setZero()`: the all-zero sentinel. -/
def M3.zero : M3 := ⟨V3.zero, V3.zero, V3.zero⟩

open Classical in
/-- Model of `get_orthonormal_basis`: zero sentinel on invalid axes, otherwise columns
`(normalize X, normalize ((X × Y) × X), normalize (X × Y))`. -/
noncomputable def get_orthonormal_basis (X Y : V3) (epsilon : ℝ) : M3 :=
  if axes_are_valid X Y epsilon then
    let Z := X.cross Y
    let Y_ortho := Z.cross X
    ⟨X.normalized, Y_ortho.normalized, Z.normalized⟩
  else M3.zero

/-- Exact orthonormality of the three columns. -/
def M3.orthonormal (B : M3) : Prop :=
  B.c0.dot B.c0 = 1 ∧ B.c1.dot B.c1 = 1 ∧ B.c2.dot B.c2 = 1 ∧
    B.c0.dot B.c1 = 0 ∧ B.c0.dot B.c2 = 0 ∧ B.c1.dot B.c2 = 0

/-- Orthonormality within a validation tolerance `epsilon`. -/
def M3.orthonormal_within (B : M3) (epsilon : ℝ) : Prop :=
  |B.c0.dot B.c0 - 1| ≤ epsilon ∧ |B.c1.dot B.c1 - 1| ≤ epsilon ∧
    |B.c2.dot B.c2 - 1| ≤ epsilon ∧ |B.c0.dot B.c1| ≤ epsilon ∧
    |B.c0.dot B.c2| ≤ epsilon ∧ |B.c1.dot B.c2| ≤ epsilon

/-! ### Geometry helper lemmas -/

lemma V3.normSq_nonneg (v : V3) : 0 ≤ v.normSq :=
  add_nonneg (add_nonneg (mul_self_nonneg _) (mul_self_nonneg _))
    (mul_self_nonneg _)

lemma V3.normSq_pos_of_ne_zero {v : V3} (h : v ≠ V3.zero) : 0 < v.normSq := by
  rcases lt_or_eq_of_le (V3.normSq_nonneg v) with hlt | heq
  · exact hlt
  · exfalso
    apply h
    unfold V3.normSq V3.dot at heq
    have hvx : v.x = 0 := mul_self_eq_zero.mp (by
      nlinarith [mul_self_nonneg v.x, mul_self_nonneg v.y, mul_self_nonneg v.z])
    have hvy : v.y = 0 := mul_self_eq_zero.mp (by
      nlinarith [mul_self_nonneg v.x, mul_self_nonneg v.y, mul_self_nonneg v.z])
    have hvz : v.z = 0 := mul_self_eq_zero.mp (by
      nlinarith [mul_self_nonneg v.x, mul_self_nonneg v.y, mul_self_nonneg v.z])
    have hv : v = ⟨v.x, v.y, v.z⟩ := rfl
    rw [hv, hvx, hvy, hvz]
    rfl

lemma V3.norm_mul_self {v : V3} : v.norm * v.norm = v.normSq :=
  Real.mul_self_sqrt (V3.normSq_nonneg v)

lemma V3.dot_normalized_self {v : V3} (h : v ≠ V3.zero) :
    v.normalized.dot v.normalized = 1 := by
  have key : v.normalized.dot v.normalized = v.normSq / (v.norm * v.norm) := by
    unfold V3.normalized V3.normSq V3.dot
    ring
  rw [key, V3.norm_mul_self]
  exact div_self (ne_of_gt (V3.normSq_pos_of_ne_zero h))

lemma V3.dot_normalized_zero {a b : V3} (h : a.dot b = 0) :
    a.normalized.dot b.normalized = 0 := by
  have key : a.normalized.dot b.normalized = a.dot b / (a.norm * b.norm) := by
    unfold V3.normalized V3.dot
    ring
  rw [key, h, zero_div]

lemma V3.dot_self_cross (a b : V3) : a.dot (a.cross b) = 0 := by
  unfold V3.dot V3.cross
  ring

lemma V3.dot_cross_left_self (a b : V3) : a.dot (b.cross a) = 0 := by
  unfold V3.dot V3.cross
  ring

lemma V3.cross_dot_left (a b : V3) : (a.cross b).dot a = 0 := by
  unfold V3.dot V3.cross
  ring

/-- Lagrange identity in `ℝ³`. -/
lemma V3.normSq_cross (a b : V3) :
    (a.cross b).normSq = a.normSq * b.normSq - (a.dot b) ^ 2 := by
  unfold V3.normSq V3.dot V3.cross
  ring

lemma V3.cross_zero_left (b : V3) : V3.cross V3.zero b = V3.zero := by
  unfold V3.cross V3.zero
  simp

lemma V3.cross_zero_right (a : V3) : V3.cross a V3.zero = V3.zero := by
  unfold V3.cross V3.zero
  simp

lemma V3.norm_zero : V3.norm V3.zero = 0 := by
  unfold V3.norm V3.normSq V3.dot V3.zero
  simp

lemma V3.norm_e1 : V3.norm ⟨1, 0, 0⟩ = 1 := by
  unfold V3.norm V3.normSq V3.dot
  norm_num

lemma V3.normalized_e1 : V3.normalized ⟨1, 0, 0⟩ = ⟨1, 0, 0⟩ := by
  unfold V3.normalized
  rw [V3.norm_e1]
  norm_num

lemma V3.normalized_zero : V3.normalized V3.zero = V3.zero := by
  unfold V3.normalized
  rw [V3.norm_zero]
  simp [V3.zero]

/-! ### Claim C1 -/

/-- C1 counterexample: for `X = (1,0,0)`, `Y = (-1,0,0)` (anti-parallel, so
`axes_are_valid` passes but `X × Y = 0`) with `epsilon = 1e-8`, the returned
matrix is neither orthonormal within epsilon nor the zero sentinel: its first
column is the unit vector `X` while the other two are degenerate. -/
theorem c1_counterexample :
    ¬ ((get_orthonormal_basis ⟨1, 0, 0⟩ ⟨-1, 0, 0⟩ (1 / 100000000)).orthonormal_within
          (1 / 100000000) ∨
        get_orthonormal_basis ⟨1, 0, 0⟩ ⟨-1, 0, 0⟩ (1 / 100000000) = M3.zero) := by
  have hny : V3.norm ⟨-1, 0, 0⟩ = 1 := by
    unfold V3.norm V3.normSq V3.dot
    norm_num
  have hval : axes_are_valid ⟨1, 0, 0⟩ ⟨-1, 0, 0⟩ (1 / 100000000) := by
    refine ⟨⟨trivial, ?_⟩, ⟨trivial, ?_⟩, ?_⟩
    · rw [V3.norm_e1]
      norm_num
    · rw [hny]
      norm_num
    · unfold isApprox V3.sub V3.normSq V3.dot
      norm_num
  have hcross : V3.cross ⟨1, 0, 0⟩ ⟨-1, 0, 0⟩ = V3.zero := by
    unfold V3.cross
    norm_num
    rfl
  have hB : get_orthonormal_basis ⟨1, 0, 0⟩ ⟨-1, 0, 0⟩ (1 / 100000000) =
      ⟨⟨1, 0, 0⟩, V3.zero, V3.zero⟩ := by
    unfold get_orthonormal_basis
    rw [if_pos hval]
    dsimp only
    rw [hcross, V3.cross_zero_left, V3.normalized_zero, V3.normalized_e1]
  rw [hB]
  rintro (hw | hz)
  · have h1 := hw.2.1
    unfold V3.dot V3.zero at h1
    rw [abs_le] at h1
    norm_num at h1
  · have h1 := congrArg (fun B => B.c0.x) hz
    unfold M3.zero V3.zero at h1
    norm_num at h1

/-- C1 (amended): when `axes_are_valid` holds *and* the two axes are not
colinear (`X × Y ≠ 0`), the three columns are exactly mutually orthogonal
unit vectors; whenever `axes_are_valid` fails the result is the all-zero
sentinel. (The counterexample forces the extra non-colinearity hypothesis:
valid anti-parallel or scaled axes produce a partially valid matrix.) -/
theorem c1_orthonormal_or_sentinel :
    (∀ (X Y : V3) (epsilon : ℝ), axes_are_valid X Y epsilon →
        X.cross Y ≠ V3.zero →
        (get_orthonormal_basis X Y epsilon).orthonormal) ∧
    (∀ (X Y : V3) (epsilon : ℝ), ¬ axes_are_valid X Y epsilon →
        get_orthonormal_basis X Y epsilon = M3.zero) := by
  constructor
  · intro X Y epsilon hval hZ
    unfold get_orthonormal_basis
    rw [if_pos hval]
    dsimp only
    have hX : X ≠ V3.zero := by
      intro h
      apply hZ
      rw [h]
      exact V3.cross_zero_left Y
    have hZX0 : (X.cross Y).dot X = 0 := V3.cross_dot_left X Y
    have hYo : (X.cross Y).cross X ≠ V3.zero := by
      intro h
      have hsq := congrArg V3.normSq h
      rw [V3.normSq_cross, hZX0] at hsq
      have hz0 : V3.normSq V3.zero = 0 := by
        unfold V3.normSq V3.dot V3.zero
        norm_num
      rw [hz0] at hsq
      have hZpos := V3.normSq_pos_of_ne_zero hZ
      have hXpos := V3.normSq_pos_of_ne_zero hX
      nlinarith
    refine ⟨V3.dot_normalized_self hX, V3.dot_normalized_self hYo,
      V3.dot_normalized_self hZ, ?_, ?_, ?_⟩
    · exact V3.dot_normalized_zero (V3.dot_cross_left_self X (X.cross Y))
    · exact V3.dot_normalized_zero (V3.dot_self_cross X Y)
    · exact V3.dot_normalized_zero (V3.cross_dot_left (X.cross Y) X)
  · intro X Y epsilon hval
    unfold get_orthonormal_basis
    rw [if_neg hval]

/-- Witness for C1 (amended): orthogonal unit axes give an orthonormal basis;
a zero axis gives the sentinel. -/
theorem c1_witness :
    (get_orthonormal_basis ⟨1, 0, 0⟩ ⟨0, 1, 0⟩ (1 / 100000000)).orthonormal ∧
    get_orthonormal_basis V3.zero ⟨0, 1, 0⟩ 1 = M3.zero := by
  constructor
  · apply c1_orthonormal_or_sentinel.1
    · refine ⟨⟨trivial, ?_⟩, ⟨trivial, ?_⟩, ?_⟩
      · rw [V3.norm_e1]
        norm_num
      · unfold V3.norm V3.normSq V3.dot
        norm_num
      · unfold isApprox V3.sub V3.normSq V3.dot
        norm_num
    · unfold V3.cross V3.zero
      intro h
      have h1 := congrArg V3.z h
      norm_num at h1
  · apply c1_orthonormal_or_sentinel.2
    rintro ⟨⟨-, h1⟩, -, -⟩
    rw [V3.norm_zero] at h1
    norm_num at h1

/-! ### Claim C2 -/

/-- C2 counterexample: `Y = (2,0,0)` is the positive scalar multiple
`2 • X` of `X = (1,0,0)`, both inputs are finite nonzero vectors, yet with
`epsilon = 1e-8` `get_orthonormal_basis` does not return the zero sentinel
(its first column is the unit vector `X`; `axes_are_valid` passes because
`X` is not approximately equal to `2 • X`). -/
theorem c2_counterexample :
    (∃ c : ℝ, 0 < c ∧ (⟨2, 0, 0⟩ : V3) = V3.smul c ⟨1, 0, 0⟩) ∧
    get_orthonormal_basis ⟨1, 0, 0⟩ ⟨2, 0, 0⟩ (1 / 100000000) ≠ M3.zero := by
  constructor
  · refine ⟨2, by norm_num, ?_⟩
    unfold V3.smul
    norm_num
  · have hval : axes_are_valid ⟨1, 0, 0⟩ ⟨2, 0, 0⟩ (1 / 100000000) := by
      refine ⟨⟨trivial, ?_⟩, ⟨trivial, ?_⟩, ?_⟩
      · rw [V3.norm_e1]
        norm_num
      · unfold V3.norm V3.normSq V3.dot
        norm_num
        rw [show (4 : ℝ) = 2 ^ 2 by norm_num, Real.sqrt_sq (by norm_num)]
        norm_num
      · unfold isApprox V3.sub V3.normSq V3.dot
        norm_num
    unfold get_orthonormal_basis
    rw [if_pos hval]
    dsimp only
    intro h
    have h1 := congrArg (fun B => B.c0.x) h
    dsimp only at h1
    rw [V3.normalized_e1] at h1
    unfold M3.zero V3.zero at h1
    norm_num at h1

/-- C2 (amended): `get_orthonormal_basis` returns the all-zero sentinel
whenever `Y` is a positive scalar multiple of `X` that is approximately equal
to `X` within epsilon, and whenever either input is the zero vector (for a
non-negative epsilon). (The counterexample forces the approximate-equality
restriction: a positive multiple far from `X` passes `axes_are_valid` and
yields a partially valid matrix instead; non-finite inputs have no
counterpart in the real model.) -/
theorem c2_sentinel_cases (X Y : V3) (epsilon : ℝ)
    (h : (∃ c : ℝ, 0 < c ∧ Y = V3.smul c X ∧ isApprox X Y epsilon) ∨
      (0 ≤ epsilon ∧ (X = V3.zero ∨ Y = V3.zero))) :
    get_orthonormal_basis X Y epsilon = M3.zero := by
  unfold get_orthonormal_basis
  rw [if_neg]
  rintro ⟨⟨-, hX⟩, ⟨-, hY⟩, hne⟩
  rcases h with ⟨c, -, -, happ⟩ | ⟨heps, h0 | h0⟩
  · exact hne happ
  · rw [h0, V3.norm_zero] at hX
    exact absurd hX (by linarith)
  · rw [h0, V3.norm_zero] at hY
    exact absurd hY (by linarith)

/-- Witness for C2 (amended): `Y = X` (the multiple `c = 1`) and a zero
axis both give the sentinel. -/
theorem c2_witness :
    get_orthonormal_basis ⟨1, 0, 0⟩ ⟨1, 0, 0⟩ (1 / 100000000) = M3.zero ∧
    get_orthonormal_basis V3.zero ⟨0, 1, 0⟩ 1 = M3.zero := by
  constructor
  · apply c2_sentinel_cases
    refine Or.inl ⟨1, by norm_num, ?_, ?_⟩
    · unfold V3.smul
      norm_num
    · unfold isApprox V3.sub V3.normSq V3.dot
      norm_num
  · apply c2_sentinel_cases
    exact Or.inr ⟨by norm_num, Or.inl rfl⟩

/-! ## npz dataset validation (`verify_npz_structure`)

A `cnpy::NpyArray` carries a shape vector and a raw byte buffer that the
code reinterprets per call through `data<T>()`; the model therefore carries
one value list per element-type view (`int64_t` and the floating-point
`npz::ReadTypes::Point`), each holding the `shape[0]` logical elements.
The dataset `std::map` is an association list sorted by key, the order in
which `std::map` iterates. The boolean C++ result is `Option.isNone` of the
returned error; the error constructors are in one-to-one correspondence with
the `X_ERROR` reports of the source. -/

/-- Model of `cnpy::NpyArray`: shape plus the data buffer under its two views. -/
structure NpyArray where
  shape : List Nat
  idata : List Int
  fdata : List ℚ
deriving DecidableEq, Repr

/-- Model of `npz::Fields::get_fields()[POINTS_IDX]` (index 0 of the schema list). -/
def pointsFieldName : String := "pcloud_points"

/-- Schema field 1. -/
def azimuthField : String := "pcloud_attr.azimuth"

/-- Schema field 2. -/
def boundaryField : String := "pcloud_attr.boundary"

/-- Schema field 3 (`COL_IDX`). -/
def colField : String := "pcloud_attr.col"

/-- Schema field 4 (`DEPTH_IDX`). -/
def depthField : String := "pcloud_attr.depth"

/-- Schema field 5 (`DISTANCE_IDX`). -/
def distanceField : String := "pcloud_attr.distance"

/-- Schema field 6 (`ID_IDX`). -/
def lidarIdField : String := "pcloud_attr.lidar_id"

/-- Schema field 7 (`RECTIME_IDX`). -/
def rectimeField : String := "pcloud_attr.rectime"

/-- Schema field 8. -/
def reflectanceField : String := "pcloud_attr.reflectance"

/-- Schema field 9 (`ROW_IDX`). -/
def rowField : String := "pcloud_attr.row"

/-- Schema field 10 (`TIMESTAMP_IDX`). -/
def timestampField : String := "pcloud_attr.timestamp"

/-- Schema field 11 (`VALID_IDX`). -/
def validField : String := "pcloud_attr.valid"

/-- Model of `npz::Fields::get_fields()`: the fixed 12-field schema, in source order.
The index constants (`POINTS_IDX = 0` … `VALID_IDX = 11`,
`ROW_SHAPE_IDX = 0`, `COL_SHAPE_IDX = 1`) live in the repository header. -/
def npzFields : List String :=
  [pointsFieldName, azimuthField, boundaryField, colField, depthField,
    distanceField, lidarIdField, rectimeField, reflectanceField, rowField,
    timestampField, validField]

/-- Modelled from the spec: the templated header helper
`all_non_negative<int64_t>` (the header is not among the provided sources);
per §4.3 of the spec the named fields "must be entirely non-negative when
interpreted as signed 64-bit integers". -/
def all_non_negative_int (arr : NpyArray) : Bool :=
  arr.idata.all (fun v => decide (0 ≤ v))

/-- Modelled from the spec: `all_non_negative<npz::ReadTypes::Point>`; per
§4.3 the depth/distance fields "must be entirely non-negative when
interpreted as the dataset's floating-point element type". -/
def all_non_negative_float (arr : NpyArray) : Bool :=
  arr.fdata.all (fun q => decide (0 ≤ q))

/-- Model of `static_cast<uint64_t>` applied to an `int64_t` value. -/
def int64_to_uint64 (v : Int) : Nat := (v % 2 ^ 64).toNat

/-- The distinct `X_ERROR` failure reports of `verify_npz_structure`. -/
inductive VerifyError where
  | fieldCount (n : Nat)
  | missingField (name : String)
  | pointsDims (n : Nat)
  | pointsCols (n : Nat)
  | attrDims (name : String) (n : Nat)
  | attrRows (name : String) (n : Nat)
  | signError (name : String)
  | timestampRange (t : Nat)
deriving DecidableEq, Repr

/-- The per-field body of the `for (const auto& p : npz)` loop: skip the
points field, then check dimensionality, row count, sign, and (for the
timestamp field) the ROS-representable range, returning the first failure. -/
def checkField (pointsRows : Nat) (name : String) (arr : NpyArray) :
    Option VerifyError :=
  if name = pointsFieldName then none
  else if arr.shape.length ≠ 1 then some (.attrDims name arr.shape.length)
  else if arr.shape.getD 0 0 ≠ pointsRows then
    some (.attrRows name (arr.shape.getD 0 0))
  else
    let is_timestamp := decide (name = timestampField)
    let is_rectime := decide (name = rectimeField)
    let is_lidar_id := decide (name = lidarIdField)
    let is_depth := decide (name = depthField)
    let is_distance := decide (name = distanceField)
    let sign_error :=
      ((is_timestamp || is_rectime || is_lidar_id) &&
          !(all_non_negative_int arr)) ||
        ((is_depth || is_distance) && !(all_non_negative_float arr))
    if sign_error then some (.signError name)
    else if is_timestamp then
      match arr.idata.find?
          (fun v => !(valid_ros_timestamp (int64_to_uint64 v))) with
      | some v => some (.timestampRange (int64_to_uint64 v))
      | none => none
    else none

/-- The field loop of `verify_npz_structure`, over the map in key order. -/
def verifyFields (pointsRows : Nat) :
    List (String × NpyArray) → Option VerifyError
  | [] => none
  | p :: rest =>
    match checkField pointsRows p.1 p.2 with
    | some e => some e
    | none => verifyFields pointsRows rest

/-- Model of `verify_npz_structure`: cardinality, presence, points shape, then the
per-field loop; the C++ boolean result is `Option.isNone` of this. -/
def verify_npz_structure (npz : List (String × NpyArray)) :
    Option VerifyError :=
  if npz.length ≠ npzFields.length then some (.fieldCount npz.length)
  else
    match npzFields.find?
        (fun f => (npz.find? (fun p => decide (p.1 = f))).isNone) with
    | some f => some (.missingField f)
    | none =>
      match npz.find? (fun p => decide (p.1 = pointsFieldName)) with
      | none => some (.missingField pointsFieldName)
      | some pf =>
        if pf.2.shape.length ≠ 2 then some (.pointsDims pf.2.shape.length)
        else if pf.2.shape.getD 1 0 ≠ 3 then
          some (.pointsCols (pf.2.shape.getD 1 0))
        else verifyFields (pf.2.shape.getD 0 0) npz

/-- A 12-field dataset as a `std::map` stores it: the schema keys in
lexicographic order (any map passing the cardinality and presence checks has
exactly these keys in exactly this order). -/
def mkNpz (az bd co de di li re rf ro ts va pt : NpyArray) :
    List (String × NpyArray) :=
  [(azimuthField, az), (boundaryField, bd), (colField, co), (depthField, de),
    (distanceField, di), (lidarIdField, li), (rectimeField, re),
    (reflectanceField, rf), (rowField, ro), (timestampField, ts),
    (validField, va), (pointsFieldName, pt)]

/-! ### npz helper lemmas -/

lemma verifyFields_cons_some {rows : Nat} {n : String} {a : NpyArray}
    {rest : List (String × NpyArray)} {e : VerifyError}
    (h : checkField rows n a = some e) :
    verifyFields rows ((n, a) :: rest) = some e := by
  have hdef : verifyFields rows ((n, a) :: rest) =
      match checkField rows n a with
      | some e => some e
      | none => verifyFields rows rest := rfl
  rw [hdef, h]

lemma verifyFields_cons_none {rows : Nat} {n : String} {a : NpyArray}
    {rest : List (String × NpyArray)}
    (h : checkField rows n a = none) :
    verifyFields rows ((n, a) :: rest) = verifyFields rows rest := by
  have hdef : verifyFields rows ((n, a) :: rest) =
      match checkField rows n a with
      | some e => some e
      | none => verifyFields rows rest := rfl
  rw [hdef, h]

lemma checkField_points (rows : Nat) (arr : NpyArray) :
    checkField rows pointsFieldName arr = none := by
  unfold checkField
  rw [if_pos rfl]

/-- A field that is neither the points field nor one of the five
sign-checked fields passes its per-field checks whenever its shape is the
1-D row count. -/
lemma checkField_plain {name : String} (rows : Nat) (arr : NpyArray)
    (h1 : name ≠ pointsFieldName) (h2 : name ≠ timestampField)
    (h3 : name ≠ rectimeField) (h4 : name ≠ lidarIdField)
    (h5 : name ≠ depthField) (h6 : name ≠ distanceField)
    (hs : arr.shape = [rows]) :
    checkField rows name arr = none := by
  unfold checkField
  rw [if_neg h1]
  rw [hs]
  simp [h2, h3, h4, h5, h6]

lemma checkField_float_signed {name : String} (rows : Nat) (arr : NpyArray)
    (h1 : name = depthField ∨ name = distanceField)
    (hs : arr.shape = [rows]) :
    checkField rows name arr =
      if all_non_negative_float arr then none
      else some (.signError name) := by
  have hname : name ≠ pointsFieldName ∧ name ≠ timestampField ∧
      name ≠ rectimeField ∧ name ≠ lidarIdField := by
    rcases h1 with h | h <;> subst h <;> refine ⟨?_, ?_, ?_, ?_⟩ <;> decide
  unfold checkField
  rw [if_neg hname.1, hs]
  by_cases hnn : all_non_negative_float arr
  · rcases h1 with h | h <;> subst h <;>
      simp [hnn, hname.2.1, hname.2.2.1, hname.2.2.2]
  · have hnn' : all_non_negative_float arr = false :=
      Bool.eq_false_iff.mpr hnn
    rcases h1 with h | h <;> subst h <;>
      simp [hnn', hname.2.1, hname.2.2.1, hname.2.2.2]

lemma checkField_int_signed {name : String} (rows : Nat) (arr : NpyArray)
    (h1 : name = rectimeField ∨ name = lidarIdField)
    (hs : arr.shape = [rows]) :
    checkField rows name arr =
      if all_non_negative_int arr then none
      else some (.signError name) := by
  have hname : name ≠ pointsFieldName ∧ name ≠ timestampField ∧
      name ≠ depthField ∧ name ≠ distanceField := by
    rcases h1 with h | h <;> subst h <;> refine ⟨?_, ?_, ?_, ?_⟩ <;> decide
  unfold checkField
  rw [if_neg hname.1, hs]
  by_cases hnn : all_non_negative_int arr
  · rcases h1 with h | h <;> subst h <;>
      simp [hnn, hname.2.1, hname.2.2.1, hname.2.2.2]
  · have hnn' : all_non_negative_int arr = false :=
      Bool.eq_false_iff.mpr hnn
    rcases h1 with h | h <;> subst h <;>
      simp [hnn', hname.2.1, hname.2.2.1, hname.2.2.2]

lemma checkField_timestamp (rows : Nat) (arr : NpyArray)
    (hs : arr.shape = [rows]) :
    checkField rows timestampField arr =
      if all_non_negative_int arr then
        match arr.idata.find?
            (fun v => !(valid_ros_timestamp (int64_to_uint64 v))) with
        | some v => some (.timestampRange (int64_to_uint64 v))
        | none => none
      else some (.signError timestampField) := by
  unfold checkField
  rw [if_neg (by decide : timestampField ≠ pointsFieldName), hs]
  have d1 : decide (timestampField = rectimeField) = false := by decide
  have d2 : decide (timestampField = lidarIdField) = false := by decide
  have d3 : decide (timestampField = depthField) = false := by decide
  have d4 : decide (timestampField = distanceField) = false := by decide
  have d5 : decide (timestampField = timestampField) = true := by decide
  by_cases hnn : all_non_negative_int arr
  · simp [hnn, d1, d2, d3, d4, d5]
  · have hnn' : all_non_negative_int arr = false := Bool.eq_false_iff.mpr hnn
    simp [hnn', d1, d2, d3, d4, d5]

/-- On a 12-field dataset the cardinality and presence checks pass, and
validation reduces to the points-shape checks plus the per-field loop. -/
lemma verify_mkNpz (az bd co de di li re rf ro ts va pt : NpyArray) :
    verify_npz_structure (mkNpz az bd co de di li re rf ro ts va pt) =
      if pt.shape.length ≠ 2 then some (.pointsDims pt.shape.length)
      else if pt.shape.getD 1 0 ≠ 3 then
        some (.pointsCols (pt.shape.getD 1 0))
      else verifyFields (pt.shape.getD 0 0)
        (mkNpz az bd co de di li re rf ro ts va pt) := by
  have hpres : npzFields.find?
      (fun f => ((mkNpz az bd co de di li re rf ro ts va pt).find?
        (fun p => decide (p.1 = f))).isNone) = none := by
    simp [npzFields, mkNpz, List.find?, pointsFieldName, azimuthField,
      boundaryField, colField, depthField, distanceField, lidarIdField,
      rectimeField, reflectanceField, rowField, timestampField, validField]
  have hpts : (mkNpz az bd co de di li re rf ro ts va pt).find?
      (fun p => decide (p.1 = pointsFieldName)) =
        some (pointsFieldName, pt) := by
    simp [mkNpz, List.find?, pointsFieldName, azimuthField, boundaryField,
      colField, depthField, distanceField, lidarIdField, rectimeField,
      reflectanceField, rowField, timestampField, validField]
  have hlen : ¬ ((mkNpz az bd co de di li re rf ro ts va pt).length ≠
      npzFields.length) := by
    simp [mkNpz, npzFields]
  unfold verify_npz_structure
  rw [if_neg hlen, hpres, hpts]

/-- Under the structural hypotheses (every attribute 1-D of the points row
count), the per-field loop reduces to the sign checks in map order —
depth, distance, lidar_id, rectime, timestamp — followed by the timestamp
range scan. -/
lemma verifyFields_mkNpz (az bd co de di li re rf ro ts va pt : NpyArray)
    (rows : Nat) (haz : az.shape = [rows]) (hbd : bd.shape = [rows])
    (hco : co.shape = [rows]) (hde : de.shape = [rows])
    (hdi : di.shape = [rows]) (hli : li.shape = [rows])
    (hre : re.shape = [rows]) (hrf : rf.shape = [rows])
    (hro : ro.shape = [rows]) (hts : ts.shape = [rows])
    (hva : va.shape = [rows]) :
    verifyFields rows (mkNpz az bd co de di li re rf ro ts va pt) =
      if all_non_negative_float de = false then
        some (.signError depthField)
      else if all_non_negative_float di = false then
        some (.signError distanceField)
      else if all_non_negative_int li = false then
        some (.signError lidarIdField)
      else if all_non_negative_int re = false then
        some (.signError rectimeField)
      else if all_non_negative_int ts = false then
        some (.signError timestampField)
      else
        match ts.idata.find?
            (fun v => !(valid_ros_timestamp (int64_to_uint64 v))) with
        | some v => some (.timestampRange (int64_to_uint64 v))
        | none => none := by
  unfold mkNpz
  rw [verifyFields_cons_none
      (checkField_plain rows az (by decide) (by decide) (by decide)
        (by decide) (by decide) (by decide) haz),
    verifyFields_cons_none
      (checkField_plain rows bd (by decide) (by decide) (by decide)
        (by decide) (by decide) (by decide) hbd),
    verifyFields_cons_none
      (checkField_plain rows co (by decide) (by decide) (by decide)
        (by decide) (by decide) (by decide) hco)]
  by_cases hnnde : all_non_negative_float de
  case neg =>
    have h := Bool.eq_false_iff.mpr hnnde
    rw [verifyFields_cons_some
      (by rw [checkField_float_signed rows de (Or.inl rfl) hde, if_neg
        (by rw [h]; exact Bool.false_ne_true)])]
    rw [h]
    rfl
  case pos =>
    rw [verifyFields_cons_none
      (by rw [checkField_float_signed rows de (Or.inl rfl) hde,
        if_pos hnnde])]
    rw [if_neg (by rw [hnnde]; simp)]
    by_cases hnndi : all_non_negative_float di
    case neg =>
      have h := Bool.eq_false_iff.mpr hnndi
      rw [verifyFields_cons_some
        (by rw [checkField_float_signed rows di (Or.inr rfl) hdi, if_neg
          (by rw [h]; exact Bool.false_ne_true)])]
      rw [h]
      rfl
    case pos =>
      rw [verifyFields_cons_none
        (by rw [checkField_float_signed rows di (Or.inr rfl) hdi,
          if_pos hnndi])]
      rw [if_neg (by rw [hnndi]; simp)]
      by_cases hnnli : all_non_negative_int li
      case neg =>
        have h := Bool.eq_false_iff.mpr hnnli
        rw [verifyFields_cons_some
          (by rw [checkField_int_signed rows li (Or.inr rfl) hli, if_neg
            (by rw [h]; exact Bool.false_ne_true)])]
        rw [h]
        rfl
      case pos =>
        rw [verifyFields_cons_none
          (by rw [checkField_int_signed rows li (Or.inr rfl) hli,
            if_pos hnnli])]
        rw [if_neg (by rw [hnnli]; simp)]
        by_cases hnnre : all_non_negative_int re
        case neg =>
          have h := Bool.eq_false_iff.mpr hnnre
          rw [verifyFields_cons_some
            (by rw [checkField_int_signed rows re (Or.inl rfl) hre, if_neg
              (by rw [h]; exact Bool.false_ne_true)])]
          rw [h]
          rfl
        case pos =>
          rw [verifyFields_cons_none
            (by rw [checkField_int_signed rows re (Or.inl rfl) hre,
              if_pos hnnre])]
          rw [if_neg (by rw [hnnre]; simp)]
          rw [verifyFields_cons_none
            (checkField_plain rows rf (by decide) (by decide) (by decide)
              (by decide) (by decide) (by decide) hrf),
            verifyFields_cons_none
            (checkField_plain rows ro (by decide) (by decide) (by decide)
              (by decide) (by decide) (by decide) hro)]
          by_cases hnnts : all_non_negative_int ts
          case neg =>
            have h := Bool.eq_false_iff.mpr hnnts
            rw [verifyFields_cons_some
              (by rw [checkField_timestamp rows ts hts, if_neg
                (by rw [h]; exact Bool.false_ne_true)])]
            rw [h]
            rfl
          case pos =>
            rw [if_neg (by rw [hnnts]; simp)]
            cases hfind : ts.idata.find?
                (fun v => !(valid_ros_timestamp (int64_to_uint64 v))) with
            | some v =>
              rw [verifyFields_cons_some
                (by rw [checkField_timestamp rows ts hts, if_pos hnnts,
                  hfind])]
            | none =>
              rw [verifyFields_cons_none
                (by rw [checkField_timestamp rows ts hts, if_pos hnnts,
                  hfind]),
                verifyFields_cons_none
                (checkField_plain rows va (by decide) (by decide) (by decide)
                  (by decide) (by decide) (by decide) hva),
                verifyFields_cons_none (checkField_points rows pt)]
              rfl

lemma all_non_negative_int_true_iff {arr : NpyArray} :
    all_non_negative_int arr = true ↔ ∀ v ∈ arr.idata, 0 ≤ v := by
  rw [all_non_negative_int, List.all_eq_true]
  simp only [decide_eq_true_eq]

lemma all_non_negative_float_true_iff {arr : NpyArray} :
    all_non_negative_float arr = true ↔ ∀ q ∈ arr.fdata, 0 ≤ q := by
  rw [all_non_negative_float, List.all_eq_true]
  simp only [decide_eq_true_eq]

lemma all_non_negative_int_false_iff {arr : NpyArray} :
    all_non_negative_int arr = false ↔ ∃ v ∈ arr.idata, v < 0 := by
  rw [Bool.eq_false_iff, Ne, all_non_negative_int, List.all_eq_true]
  simp only [decide_eq_true_eq]
  push_neg
  rfl

lemma all_non_negative_float_false_iff {arr : NpyArray} :
    all_non_negative_float arr = false ↔ ∃ q ∈ arr.fdata, q < 0 := by
  rw [Bool.eq_false_iff, Ne, all_non_negative_float, List.all_eq_true]
  simp only [decide_eq_true_eq]
  push_neg
  rfl

/-- A non-points field that passes its per-field checks is 1-D with the
points row count. -/
lemma checkField_none_shape {rows : Nat} {name : String} {arr : NpyArray}
    (hname : name ≠ pointsFieldName) (h : checkField rows name arr = none) :
    arr.shape = [rows] := by
  unfold checkField at h
  rw [if_neg hname] at h
  by_cases h1 : arr.shape.length ≠ 1
  · rw [if_pos h1] at h
    simp at h
  · rw [if_neg h1] at h
    by_cases h2 : arr.shape.getD 0 0 ≠ rows
    · rw [if_pos h2] at h
      simp at h
    · push_neg at h1 h2
      obtain ⟨a, ha⟩ := List.length_eq_one.mp h1
      rw [ha] at h2 ⊢
      simp only [List.getD_cons_zero] at h2
      rw [h2]

lemma verifyFields_none_iff {rows : Nat} {l : List (String × NpyArray)} :
    verifyFields rows l = none ↔
      ∀ p ∈ l, checkField rows p.1 p.2 = none := by
  induction l with
  | nil => simp [verifyFields]
  | cons p rest ih =>
    have hdef : verifyFields rows (p :: rest) =
        match checkField rows p.1 p.2 with
        | some e => some e
        | none => verifyFields rows rest := rfl
    rw [hdef]
    cases hc : checkField rows p.1 p.2 with
    | some e =>
      constructor
      · intro h
        simp at h
      · intro h
        exact absurd (h p (List.mem_cons_self p rest)) (by simp [hc])
    | none =>
      constructor
      · intro h q hq
        rcases List.mem_cons.mp hq with hq' | hq'
        · rw [hq']
          exact hc
        · exact ih.mp h q hq'
      · intro h
        exact ih.mpr (fun q hq => h q (List.mem_cons_of_mem _ hq))

/-- Setting one element to the unique match makes `find?` return it. -/
lemma find?_set_eq_some {p : Int → Bool} {l : List Int} {i : Nat} {w : Int}
    (hnone : l.find? p = none) (hi : i < l.length) (hw : p w = true) :
    (l.set i w).find? p = some w := by
  induction l generalizing i with
  | nil => simp at hi
  | cons a as ih =>
    rw [List.find?_eq_none] at hnone
    cases i with
    | zero =>
      show (w :: as).find? p = some w
      exact List.find?_cons_of_pos _ hw
    | succ n =>
      show (a :: as.set n w).find? p = some w
      rw [List.find?_cons_of_neg _ (hnone a (List.mem_cons_self a as))]
      refine ih ?_ ?_
      · exact List.find?_eq_none.mpr
          (fun x hx => hnone x (List.mem_cons_of_mem a hx))
      · simp only [List.length_cons] at hi
        omega

/-- Inversion of a successful validation: points is `N × 3`, every attribute
is 1-D of length `N`, the five sign-checked fields are non-negative, and no
timestamp is out of range. -/
lemma verify_none_inversion {az bd co de di li re rf ro ts va pt : NpyArray}
    (h : verify_npz_structure (mkNpz az bd co de di li re rf ro ts va pt) =
      none) :
    ∃ rows : Nat, pt.shape = [rows, 3] ∧ az.shape = [rows] ∧
      bd.shape = [rows] ∧ co.shape = [rows] ∧ de.shape = [rows] ∧
      di.shape = [rows] ∧ li.shape = [rows] ∧ re.shape = [rows] ∧
      rf.shape = [rows] ∧ ro.shape = [rows] ∧ ts.shape = [rows] ∧
      va.shape = [rows] ∧
      all_non_negative_float de = true ∧ all_non_negative_float di = true ∧
      all_non_negative_int li = true ∧ all_non_negative_int re = true ∧
      all_non_negative_int ts = true ∧
      ts.idata.find?
        (fun v => !(valid_ros_timestamp (int64_to_uint64 v))) = none := by
  rw [verify_mkNpz] at h
  by_cases h1 : pt.shape.length ≠ 2
  · rw [if_pos h1] at h
    simp at h
  rw [if_neg h1] at h
  by_cases h2 : pt.shape.getD 1 0 ≠ 3
  · rw [if_pos h2] at h
    simp at h
  rw [if_neg h2] at h
  push_neg at h1 h2
  obtain ⟨a, b, hab⟩ := List.length_eq_two.mp h1
  rw [hab] at h2
  simp only [List.getD_cons_succ, List.getD_cons_zero] at h2
  subst h2
  have hrows : pt.shape.getD 0 0 = a := by
    rw [hab]
    simp only [List.getD_cons_zero]
  rw [hrows] at h
  have hall := verifyFields_none_iff.mp h
  have haz := checkField_none_shape (show azimuthField ≠ pointsFieldName by decide)
    (hall (azimuthField, az) (by simp [mkNpz]))
  have hbd := checkField_none_shape (show boundaryField ≠ pointsFieldName by decide)
    (hall (boundaryField, bd) (by simp [mkNpz]))
  have hco := checkField_none_shape (show colField ≠ pointsFieldName by decide)
    (hall (colField, co) (by simp [mkNpz]))
  have hde := checkField_none_shape (show depthField ≠ pointsFieldName by decide)
    (hall (depthField, de) (by simp [mkNpz]))
  have hdi := checkField_none_shape (show distanceField ≠ pointsFieldName by decide)
    (hall (distanceField, di) (by simp [mkNpz]))
  have hli := checkField_none_shape (show lidarIdField ≠ pointsFieldName by decide)
    (hall (lidarIdField, li) (by simp [mkNpz]))
  have hre := checkField_none_shape (show rectimeField ≠ pointsFieldName by decide)
    (hall (rectimeField, re) (by simp [mkNpz]))
  have hrf := checkField_none_shape (show reflectanceField ≠ pointsFieldName by decide)
    (hall (reflectanceField, rf) (by simp [mkNpz]))
  have hro := checkField_none_shape (show rowField ≠ pointsFieldName by decide)
    (hall (rowField, ro) (by simp [mkNpz]))
  have hts := checkField_none_shape (show timestampField ≠ pointsFieldName by decide)
    (hall (timestampField, ts) (by simp [mkNpz]))
  have hva := checkField_none_shape (show validField ≠ pointsFieldName by decide)
    (hall (validField, va) (by simp [mkNpz]))
  have hde_chk := hall (depthField, de) (by simp [mkNpz])
  rw [checkField_float_signed a de (Or.inl rfl) hde] at hde_chk
  have hde_nn : all_non_negative_float de = true := by
    by_cases hc : all_non_negative_float de
    · exact hc
    · rw [if_neg hc] at hde_chk
      simp at hde_chk
  have hdi_chk := hall (distanceField, di) (by simp [mkNpz])
  rw [checkField_float_signed a di (Or.inr rfl) hdi] at hdi_chk
  have hdi_nn : all_non_negative_float di = true := by
    by_cases hc : all_non_negative_float di
    · exact hc
    · rw [if_neg hc] at hdi_chk
      simp at hdi_chk
  have hli_chk := hall (lidarIdField, li) (by simp [mkNpz])
  rw [checkField_int_signed a li (Or.inr rfl) hli] at hli_chk
  have hli_nn : all_non_negative_int li = true := by
    by_cases hc : all_non_negative_int li
    · exact hc
    · rw [if_neg hc] at hli_chk
      simp at hli_chk
  have hre_chk := hall (rectimeField, re) (by simp [mkNpz])
  rw [checkField_int_signed a re (Or.inl rfl) hre] at hre_chk
  have hre_nn : all_non_negative_int re = true := by
    by_cases hc : all_non_negative_int re
    · exact hc
    · rw [if_neg hc] at hre_chk
      simp at hre_chk
  have hts_chk := hall (timestampField, ts) (by simp [mkNpz])
  rw [checkField_timestamp a ts hts] at hts_chk
  have hts_nn : all_non_negative_int ts = true := by
    by_cases hc : all_non_negative_int ts
    · exact hc
    · rw [if_neg hc] at hts_chk
      simp at hts_chk
  rw [if_pos hts_nn] at hts_chk
  have hfind : ts.idata.find?
      (fun v => !(valid_ros_timestamp (int64_to_uint64 v))) = none := by
    cases hf : ts.idata.find?
        (fun v => !(valid_ros_timestamp (int64_to_uint64 v))) with
    | some v =>
      rw [hf] at hts_chk
      simp at hts_chk
    | none => rfl
  exact ⟨a, hab, haz, hbd, hco, hde, hdi, hli, hre, hrf, hro, hts, hva,
    hde_nn, hdi_nn, hli_nn, hre_nn, hts_nn, hfind⟩

/-! ### Claim C5 -/

/-- C5 counterexample: a dataset passing checks 1-3 whose azimuth field is
2-dimensional (shape `[5, 2]`) with length 5 differing from the points row
count 3. The claim predicts the row-count mismatch (check 4) is reported;
the code reports the dimensionality mismatch (check 5) instead, because the
per-field loop tests `shape.size() != 1` before the row count. -/
theorem c5_counterexample :
    verify_npz_structure (mkNpz ⟨[5, 2], [0], [0]⟩ ⟨[3], [], []⟩
        ⟨[3], [], []⟩ ⟨[3], [], []⟩ ⟨[3], [], []⟩ ⟨[3], [], []⟩
        ⟨[3], [], []⟩ ⟨[3], [], []⟩ ⟨[3], [], []⟩ ⟨[3], [], []⟩
        ⟨[3], [], []⟩ ⟨[3, 3], [], []⟩) =
      some (.attrDims azimuthField 2) ∧
    verify_npz_structure (mkNpz ⟨[5, 2], [0], [0]⟩ ⟨[3], [], []⟩
        ⟨[3], [], []⟩ ⟨[3], [], []⟩ ⟨[3], [], []⟩ ⟨[3], [], []⟩
        ⟨[3], [], []⟩ ⟨[3], [], []⟩ ⟨[3], [], []⟩ ⟨[3], [], []⟩
        ⟨[3], [], []⟩ ⟨[3, 3], [], []⟩) ≠
      some (.attrRows azimuthField 5) := by
  have h : verify_npz_structure (mkNpz ⟨[5, 2], [0], [0]⟩ ⟨[3], [], []⟩
      ⟨[3], [], []⟩ ⟨[3], [], []⟩ ⟨[3], [], []⟩ ⟨[3], [], []⟩
      ⟨[3], [], []⟩ ⟨[3], [], []⟩ ⟨[3], [], []⟩ ⟨[3], [], []⟩
      ⟨[3], [], []⟩ ⟨[3, 3], [], []⟩) =
        some (.attrDims azimuthField 2) := rfl
  refine ⟨h, ?_⟩
  rw [h]
  intro hc
  simp at hc

/-- C5 (amended): within the per-field loop the dimensionality check
(spec check 5) runs *before* the row-count check (spec check 4): any
non-points field whose shape is not 1-dimensional is reported as the
dimensionality mismatch, regardless of its length. The global order is
otherwise as the claim states (cardinality, presence, points shape, then
per field in map order: dimensionality, row count, sign, timestamp
range). -/
theorem c5_dims_checked_before_rows (rows : Nat) (name : String)
    (arr : NpyArray) (h1 : name ≠ pointsFieldName)
    (h2 : arr.shape.length ≠ 1) :
    checkField rows name arr = some (.attrDims name arr.shape.length) := by
  unfold checkField
  rw [if_neg h1, if_pos h2]

/-- Witness for C5 (amended): the counterexample's azimuth field. -/
theorem c5_witness :
    azimuthField ≠ pointsFieldName ∧ ([5, 2] : List Nat).length ≠ 1 ∧
    checkField 3 azimuthField ⟨[5, 2], [0], [0]⟩ =
      some (.attrDims azimuthField 2) :=
  ⟨by decide, by decide,
   c5_dims_checked_before_rows 3 azimuthField ⟨[5, 2], [0], [0]⟩
     (by decide) (by decide)⟩

/-! ### Claim C6 -/

/-- C6: on a structurally valid dataset, validation fails with a sign error
exactly when the timestamp, rectime, or lidar_id field contains a negative
signed-64-bit value or the depth or distance field contains a negative
floating-point value; and with those five fields non-negative and all
timestamps representable, validation succeeds whatever the row and col
fields contain (they are never sign-checked). -/
theorem c6_sign_error_iff (az bd co de di li re rf ro ts va pt : NpyArray)
    (rows : Nat) (hpt : pt.shape = [rows, 3]) (haz : az.shape = [rows])
    (hbd : bd.shape = [rows]) (hco : co.shape = [rows])
    (hde : de.shape = [rows]) (hdi : di.shape = [rows])
    (hli : li.shape = [rows]) (hre : re.shape = [rows])
    (hrf : rf.shape = [rows]) (hro : ro.shape = [rows])
    (hts : ts.shape = [rows]) (hva : va.shape = [rows]) :
    ((∃ e, verify_npz_structure (mkNpz az bd co de di li re rf ro ts va pt) =
        some (.signError e)) ↔
      ((∃ v ∈ ts.idata, v < 0) ∨ (∃ v ∈ re.idata, v < 0) ∨
        (∃ v ∈ li.idata, v < 0) ∨ (∃ q ∈ de.fdata, q < 0) ∨
        (∃ q ∈ di.fdata, q < 0))) ∧
    ((∀ v ∈ ts.idata, 0 ≤ v) → (∀ v ∈ re.idata, 0 ≤ v) →
      (∀ v ∈ li.idata, 0 ≤ v) → (∀ q ∈ de.fdata, 0 ≤ q) →
      (∀ q ∈ di.fdata, 0 ≤ q) →
      (∀ v ∈ ts.idata, valid_ros_timestamp (int64_to_uint64 v) = true) →
      verify_npz_structure (mkNpz az bd co de di li re rf ro ts va pt) =
        none) := by
  have hred : verify_npz_structure (mkNpz az bd co de di li re rf ro ts va pt) =
      verifyFields rows (mkNpz az bd co de di li re rf ro ts va pt) := by
    rw [verify_mkNpz, hpt]
    simp
  rw [hred, verifyFields_mkNpz az bd co de di li re rf ro ts va pt rows
    haz hbd hco hde hdi hli hre hrf hro hts hva]
  constructor
  · by_cases h1 : all_non_negative_float de = false
    · rw [if_pos h1]
      exact iff_of_true ⟨depthField, rfl⟩
        (Or.inr (Or.inr (Or.inr (Or.inl
          (all_non_negative_float_false_iff.mp h1)))))
    · rw [if_neg h1]
      have h1t : all_non_negative_float de = true := by
        cases hx : all_non_negative_float de
        · exact absurd hx h1
        · rfl
      by_cases h2 : all_non_negative_float di = false
      · rw [if_pos h2]
        exact iff_of_true ⟨distanceField, rfl⟩
          (Or.inr (Or.inr (Or.inr (Or.inr
            (all_non_negative_float_false_iff.mp h2)))))
      · rw [if_neg h2]
        have h2t : all_non_negative_float di = true := by
          cases hx : all_non_negative_float di
          · exact absurd hx h2
          · rfl
        by_cases h3 : all_non_negative_int li = false
        · rw [if_pos h3]
          exact iff_of_true ⟨lidarIdField, rfl⟩
            (Or.inr (Or.inr (Or.inl (all_non_negative_int_false_iff.mp h3))))
        · rw [if_neg h3]
          have h3t : all_non_negative_int li = true := by
            cases hx : all_non_negative_int li
            · exact absurd hx h3
            · rfl
          by_cases h4 : all_non_negative_int re = false
          · rw [if_pos h4]
            exact iff_of_true ⟨rectimeField, rfl⟩
              (Or.inr (Or.inl (all_non_negative_int_false_iff.mp h4)))
          · rw [if_neg h4]
            have h4t : all_non_negative_int re = true := by
              cases hx : all_non_negative_int re
              · exact absurd hx h4
              · rfl
            by_cases h5 : all_non_negative_int ts = false
            · rw [if_pos h5]
              exact iff_of_true ⟨timestampField, rfl⟩
                (Or.inl (all_non_negative_int_false_iff.mp h5))
            · rw [if_neg h5]
              have h5t : all_non_negative_int ts = true := by
                cases hx : all_non_negative_int ts
                · exact absurd hx h5
                · rfl
              refine iff_of_false ?_ ?_
              · rintro ⟨e, he⟩
                cases hf : ts.idata.find?
                    (fun v => !(valid_ros_timestamp (int64_to_uint64 v))) with
                | some v =>
                  rw [hf] at he
                  simp at he
                | none =>
                  rw [hf] at he
                  simp at he
              · rintro (⟨v, hv, hneg⟩ | ⟨v, hv, hneg⟩ | ⟨v, hv, hneg⟩ |
                  ⟨q, hq, hneg⟩ | ⟨q, hq, hneg⟩)
                · exact absurd hneg
                    (not_lt.mpr (all_non_negative_int_true_iff.mp h5t v hv))
                · exact absurd hneg
                    (not_lt.mpr (all_non_negative_int_true_iff.mp h4t v hv))
                · exact absurd hneg
                    (not_lt.mpr (all_non_negative_int_true_iff.mp h3t v hv))
                · exact absurd hneg
                    (not_lt.mpr (all_non_negative_float_true_iff.mp h1t q hq))
                · exact absurd hneg
                    (not_lt.mpr (all_non_negative_float_true_iff.mp h2t q hq))
  · intro gts gre gli gde gdi gval
    have t1 : ¬ all_non_negative_float de = false := by
      rw [all_non_negative_float_true_iff.mpr gde]
      simp
    have t2 : ¬ all_non_negative_float di = false := by
      rw [all_non_negative_float_true_iff.mpr gdi]
      simp
    have t3 : ¬ all_non_negative_int li = false := by
      rw [all_non_negative_int_true_iff.mpr gli]
      simp
    have t4 : ¬ all_non_negative_int re = false := by
      rw [all_non_negative_int_true_iff.mpr gre]
      simp
    have t5 : ¬ all_non_negative_int ts = false := by
      rw [all_non_negative_int_true_iff.mpr gts]
      simp
    rw [if_neg t1, if_neg t2, if_neg t3, if_neg t4, if_neg t5]
    have hf : ts.idata.find?
        (fun v => !(valid_ros_timestamp (int64_to_uint64 v))) = none :=
      List.find?_eq_none.mpr (fun v hv => by simp [gval v hv])
    rw [hf]

/-- Witness for C6: a one-point dataset with non-negative data validates;
its sign-error characterization has both sides false. -/
theorem c6_witness :
    verify_npz_structure (mkNpz ⟨[1], [0], [0]⟩ ⟨[1], [0], [0]⟩
        ⟨[1], [0], [0]⟩ ⟨[1], [0], [0]⟩ ⟨[1], [0], [0]⟩ ⟨[1], [0], [0]⟩
        ⟨[1], [0], [0]⟩ ⟨[1], [0], [0]⟩ ⟨[1], [0], [0]⟩ ⟨[1], [0], [0]⟩
        ⟨[1], [0], [0]⟩ ⟨[1, 3], [], []⟩) = none :=
  (c6_sign_error_iff ⟨[1], [0], [0]⟩ ⟨[1], [0], [0]⟩ ⟨[1], [0], [0]⟩
      ⟨[1], [0], [0]⟩ ⟨[1], [0], [0]⟩ ⟨[1], [0], [0]⟩ ⟨[1], [0], [0]⟩
      ⟨[1], [0], [0]⟩ ⟨[1], [0], [0]⟩ ⟨[1], [0], [0]⟩ ⟨[1], [0], [0]⟩
      ⟨[1, 3], [], []⟩ 1 rfl rfl rfl rfl rfl rfl rfl rfl rfl rfl rfl rfl).2
    (by decide) (by decide) (by decide) (by decide) (by decide) (by decide)

/-! ### Claim C7 -/

/-- C7: validation succeeds only if every timestamp value satisfies
`valid_ros_timestamp`; and in any dataset that validates, overwriting any
single timestamp element with a value of `4294967296000000` or more (still a
non-negative `int64`) makes validation fail with the timestamp-range error —
and no other error. -/
theorem c7_timestamp_range (az bd co de di li re rf ro ts va pt : NpyArray) :
    (verify_npz_structure (mkNpz az bd co de di li re rf ro ts va pt) =
        none →
      ∀ v ∈ ts.idata, valid_ros_timestamp (int64_to_uint64 v) = true) ∧
    (∀ (i : Nat) (w : Int),
      verify_npz_structure (mkNpz az bd co de di li re rf ro ts va pt) =
        none →
      i < ts.idata.length → 4294967296000000 ≤ w → w < 2 ^ 63 →
      verify_npz_structure (mkNpz az bd co de di li re rf ro
          ⟨ts.shape, ts.idata.set i w, ts.fdata⟩ va pt) =
        some (.timestampRange (int64_to_uint64 w))) := by
  constructor
  · intro h v hv
    obtain ⟨rows, hpt, haz, hbd, hco, hde, hdi, hli, hre, hrf, hro, hts,
      hva, hde_nn, hdi_nn, hli_nn, hre_nn, hts_nn, hfind⟩ :=
      verify_none_inversion h
    have hnot := List.find?_eq_none.mp hfind v hv
    simp only [Bool.not_eq_true', Bool.not_eq_false] at hnot
    exact hnot
  · intro i w h hi hw hw63
    obtain ⟨rows, hpt, haz, hbd, hco, hde, hdi, hli, hre, hrf, hro, hts,
      hva, hde_nn, hdi_nn, hli_nn, hre_nn, hts_nn, hfind⟩ :=
      verify_none_inversion h
    have hts' : (⟨ts.shape, ts.idata.set i w, ts.fdata⟩ : NpyArray).shape =
        [rows] := hts
    have hred : verify_npz_structure (mkNpz az bd co de di li re rf ro
        ⟨ts.shape, ts.idata.set i w, ts.fdata⟩ va pt) =
        verifyFields rows (mkNpz az bd co de di li re rf ro
          ⟨ts.shape, ts.idata.set i w, ts.fdata⟩ va pt) := by
      rw [verify_mkNpz, hpt]
      simp
    rw [hred, verifyFields_mkNpz az bd co de di li re rf ro
      ⟨ts.shape, ts.idata.set i w, ts.fdata⟩ va pt rows
      haz hbd hco hde hdi hli hre hrf hro hts' hva]
    have t1 : ¬ all_non_negative_float de = false := by
      rw [hde_nn]
      simp
    have t2 : ¬ all_non_negative_float di = false := by
      rw [hdi_nn]
      simp
    have t3 : ¬ all_non_negative_int li = false := by
      rw [hli_nn]
      simp
    have t4 : ¬ all_non_negative_int re = false := by
      rw [hre_nn]
      simp
    have hw0 : (0 : Int) ≤ w := by omega
    have hts_all : ∀ v ∈ ts.idata.set i w, 0 ≤ v := by
      intro v hv
      rcases List.mem_or_eq_of_mem_set hv with hv' | hv'
      · exact all_non_negative_int_true_iff.mp hts_nn v hv'
      · rw [hv']
        exact hw0
    have t5 : ¬ all_non_negative_int
        (⟨ts.shape, ts.idata.set i w, ts.fdata⟩ : NpyArray) = false := by
      rw [all_non_negative_int_true_iff.mpr hts_all]
      simp
    rw [if_neg t1, if_neg t2, if_neg t3, if_neg t4, if_neg t5]
    have hpw : (fun v => !(valid_ros_timestamp (int64_to_uint64 v))) w =
        true := by
      have hcast : int64_to_uint64 w = w.toNat := by
        unfold int64_to_uint64
        rw [Int.emod_eq_of_lt hw0 (by omega)]
      have hinvalid : valid_ros_timestamp w.toNat = false := by
        unfold valid_ros_timestamp ONE_MILLION
        rw [decide_eq_false_iff_not]
        omega
      simp [hcast, hinvalid]
    rw [find?_set_eq_some hfind hi hpw]

/-- Witness for C7 on a concrete valid one-point dataset: overwriting its
timestamp with `4294967296000000` yields exactly the timestamp-range
error. -/
theorem c7_witness :
    verify_npz_structure (mkNpz ⟨[1], [0], [0]⟩ ⟨[1], [0], [0]⟩
        ⟨[1], [0], [0]⟩ ⟨[1], [0], [0]⟩ ⟨[1], [0], [0]⟩ ⟨[1], [0], [0]⟩
        ⟨[1], [0], [0]⟩ ⟨[1], [0], [0]⟩ ⟨[1], [0], [0]⟩ ⟨[1], [0], [0]⟩
        ⟨[1], [0], [0]⟩ ⟨[1, 3], [], []⟩) = none ∧
    verify_npz_structure (mkNpz ⟨[1], [0], [0]⟩ ⟨[1], [0], [0]⟩
        ⟨[1], [0], [0]⟩ ⟨[1], [0], [0]⟩ ⟨[1], [0], [0]⟩ ⟨[1], [0], [0]⟩
        ⟨[1], [0], [0]⟩ ⟨[1], [0], [0]⟩ ⟨[1], [0], [0]⟩
        ⟨[1], [4294967296000000], [0]⟩ ⟨[1], [0], [0]⟩
        ⟨[1, 3], [], []⟩) =
      some (.timestampRange (int64_to_uint64 4294967296000000)) :=
  ⟨rfl,
   (c7_timestamp_range ⟨[1], [0], [0]⟩ ⟨[1], [0], [0]⟩ ⟨[1], [0], [0]⟩
      ⟨[1], [0], [0]⟩ ⟨[1], [0], [0]⟩ ⟨[1], [0], [0]⟩ ⟨[1], [0], [0]⟩
      ⟨[1], [0], [0]⟩ ⟨[1], [0], [0]⟩ ⟨[1], [0], [0]⟩ ⟨[1], [0], [0]⟩
      ⟨[1, 3], [], []⟩).2 0 4294967296000000 rfl (by decide) (by decide)
    (by decide)⟩

end A2D2
